import Mathlib

/-!
Verification development for the mlpack rank-approximate nearest-neighbor
search engine (`RASearch`, from `ra_search_impl.hpp`) and the k-means
empty-cluster heuristic (`MaxVarianceNewCluster`, from
`max_variance_new_cluster_impl.hpp`).

Real numbers (`double` in the C++) are modelled by `ℚ`; `size_t` values by
`ℕ`, with an explicit `% 2 ^ 64` wherever the C++ performs unsigned
arithmetic that may wrap.  Matrices of points (Armadillo matrices whose
columns are points) are modelled as lists of columns, each column a list of
rationals.  External collaborators (the tree constructor, the traversers,
the search rules object) live outside this translation unit; each of their
models is marked `Modelled from the spec:` in its doc comment.
-/

namespace MlpackSpec

/-- A point / column vector of an Armadillo matrix, as a list of rationals. -/
def Vec : Type := List ℚ

/-- A matrix of points: the list of its columns (`n_cols` = length). -/
def MatQ : Type := List Vec

/-- A metric, as in the C++ template parameter `MetricType`:
`Evaluate(a, b) -> distance`. -/
def Metric : Type := Vec → Vec → ℚ

/-- Scale a column vector by a scalar (Armadillo `col *= a` / `a * col`). -/
def vscale (a : ℚ) (v : Vec) : Vec := v.map (fun x => a * x)

/-- Pointwise difference of two column vectors (Armadillo `col -= other`). -/
def vsub (v w : Vec) : Vec := List.zipWith (fun x y => x - y) v w

/-- `DBL_MAX`, the largest finite `double`, as an exact rational. -/
def DBL_MAX : ℚ := 2 ^ 1024 - 2 ^ 971

/-- `size_t() - 1`, the all-ones 64-bit value used as an invalid index. -/
def SIZE_MAX : Nat := 2 ^ 64 - 1

/-! ## MaxVarianceNewCluster (max_variance_new_cluster_impl.hpp) -/

/-- The members of `MaxVarianceNewCluster` that `EmptyCluster` reads and
writes: the cached `iteration`, per-point `assignments`, and per-cluster
`variances`. -/
structure MVNC where
  iteration : Nat
  assignments : List Nat
  variances : List ℚ

/-- The inner loop of `Precalculate`: find the closest centroid to point
`x`, starting from `minDistance = ∞` (so the first centroid always wins the
first comparison) and `closestCluster = oldCentroids.n_cols`; a later
centroid replaces the current one only on a strictly smaller distance. -/
def closestCentroid (metric : Metric) (oldCentroids : List Vec) (x : Vec) : Nat :=
  (List.range oldCentroids.length).foldl
    (fun best j =>
      let d := metric x (oldCentroids.getD j [])
      match best.2 with
      | none => (j, some d)
      | some b => if d < b then (j, some d) else best)
    (oldCentroids.length, (none : Option ℚ))
  |>.1

/-- `MaxVarianceNewCluster::Precalculate`: recompute `assignments` (closest
centroid per point) and `variances` (sum of squared distances to the owning
centroid, then divided by the cluster count, or zeroed for clusters with at
most one point).  Returns `(assignments, variances)`. -/
def precalculate (metric : Metric) (data : List Vec) (oldCentroids : List Vec)
    (clusterCounts : List Nat) : List Nat × List ℚ :=
  let assignments := data.map (closestCentroid metric oldCentroids)
  let accum :=
    (List.range data.length).foldl
      (fun vars i =>
        let c := assignments.getD i 0
        vars.set c (vars.getD c 0 + (metric (data.getD i []) (oldCentroids.getD c [])) ^ 2))
      (List.replicate oldCentroids.length (0 : ℚ))
  let divided := divideVariances accum clusterCounts
  (assignments, divided)
where
  /-- The final loop of `Precalculate`: for each cluster index, divide the
  accumulated squared distances by the cluster count, or zero it when the
  count is at most one. -/
  divideVariances : List ℚ → List Nat → List ℚ
    | [], _ => []
    | v :: vs, [] => v :: vs
    | v :: vs, c :: cs => (if c ≤ 1 then 0 else v / (c : ℚ)) :: divideVariances vs cs

/-- `variances.max(maxVarCluster)`: the index of the maximum variance
(Armadillo reports the first occurrence on ties; a strictly larger value is
needed to displace the current best). -/
def maxVarCluster (vars : List ℚ) : Nat :=
  (List.range vars.length).foldl
    (fun best j => if vars.getD j 0 > vars.getD best 0 then j else best) 0

/-- The furthest-point loop of `EmptyCluster`: over all points assigned to
`maxVar`, the index of the one with the largest squared distance to
`newCentroids.col(maxVar)`, starting from `furthestPoint = data.n_cols` and
`maxDistance = -DBL_MAX` (modelled by `none`, which every candidate beats,
exactly as every squared distance exceeds `-DBL_MAX`).  The final pair is
the index together with the winning squared distance.  One loop step: -/
def furthestStep (metric : Metric) (data : List Vec) (assignments : List Nat)
    (maxVar : Nat) (centroid : Vec) (best : Nat × Option ℚ) (i : Nat) :
    Nat × Option ℚ :=
  if assignments.getD i 0 = maxVar then
    let d := (metric (data.getD i []) centroid) ^ 2
    match best.2 with
    | none => (i, some d)
    | some b => if d > b then (i, some d) else best
  else best

/-- The furthest-point loop of `EmptyCluster`, folded over the point
indices. -/
def furthestPoint (metric : Metric) (data : List Vec) (assignments : List Nat)
    (maxVar : Nat) (centroid : Vec) : Nat × Option ℚ :=
  (List.range data.length).foldl
    (furthestStep metric data assignments maxVar centroid)
    (data.length, (none : Option ℚ))

/-- The state `EmptyCluster` works from: if the `iteration` stamp is stale or
`assignments` has the wrong size, run `Precalculate`; otherwise reuse the
cached `assignments` and `variances`. -/
def mvncEffective (metric : Metric) (s : MVNC) (data : List Vec)
    (oldCentroids : List Vec) (clusterCounts : List Nat) (iteration : Nat) :
    List Nat × List ℚ :=
  if iteration ≠ s.iteration ∨ s.assignments.length ≠ data.length then
    precalculate metric data oldCentroids clusterCounts
  else (s.assignments, s.variances)

/-- Everything `MaxVarianceNewCluster::EmptyCluster` returns or mutates: the
function's return value, the updated member state, and the in-out
`newCentroids` and `clusterCounts` arguments. -/
structure EmptyClusterResult where
  ret : Nat
  state : MVNC
  newCentroids : List Vec
  clusterCounts : List Nat

/-- The update sequence of `EmptyCluster` after the maximum-variance cluster
`maxVar`, the furthest point `fp` and its squared distance `maxDistance`
have been determined, statement by statement: shift `maxVar`'s centroid to
exclude the point, move one count from `maxVar` to the empty cluster, seat
the point as the empty cluster's centroid, reassign the point, and patch the
two variances.  `size_t` decrement/increment is taken modulo `2 ^ 64`; the
mixed `double` expression `1.0 / (count - 1.0)` uses true (non-wrapping)
subtraction exactly as the C++ does. -/
def emptyClusterCore (data : List Vec) (emptyC : Nat) (newCentroids : List Vec)
    (clusterCounts : List Nat) (iteration : Nat) (assi : List Nat)
    (vars : List ℚ) (maxVar fp : Nat) (maxDistance : ℚ) : EmptyClusterResult :=
  let c := clusterCounts.getD maxVar 0
  let colMv :=
    vsub (vscale ((c : ℚ) / ((((c + (2 ^ 64 - 1)) % 2 ^ 64 : Nat)) : ℚ))
           (newCentroids.getD maxVar []))
         (vscale (1 / ((c : ℚ) - 1)) (data.getD fp []))
  let newC1 := newCentroids.set maxVar colMv
  let counts1 := clusterCounts.set maxVar ((c + (2 ^ 64 - 1)) % 2 ^ 64)
  let counts2 := counts1.set emptyC ((counts1.getD emptyC 0 + 1) % 2 ^ 64)
  let newC2 := newC1.set emptyC (data.getD fp [])
  let assi2 := assi.set fp emptyC
  let vars1 := vars.set emptyC 0
  let cNew := counts2.getD maxVar 0
  let vars2 :=
    if cNew ≤ 1 then vars1.set maxVar 0
    else vars1.set maxVar
      ((1 / (cNew : ℚ)) * ((((cNew + 1) % 2 ^ 64 : Nat) : ℚ) * vars1.getD maxVar 0 - maxDistance))
  { ret := 1
    state := { iteration := iteration, assignments := assi2, variances := vars2 }
    newCentroids := newC2
    clusterCounts := counts2 }

/-- `MaxVarianceNewCluster::EmptyCluster`: precalculate if needed, pick the
maximum-variance cluster, find its furthest point (`maxDistance` falls back
to `-DBL_MAX` when the cluster has no point), then run the update
sequence. -/
def emptyCluster (metric : Metric) (s : MVNC) (data : List Vec) (emptyC : Nat)
    (oldCentroids : List Vec) (newCentroids : List Vec) (clusterCounts : List Nat)
    (iteration : Nat) : EmptyClusterResult :=
  let eff := mvncEffective metric s data oldCentroids clusterCounts iteration
  let maxVar := maxVarCluster eff.2
  let fpr := furthestPoint metric data eff.1 maxVar (newCentroids.getD maxVar [])
  emptyClusterCore data emptyC newCentroids clusterCounts iteration eff.1 eff.2
    maxVar fpr.1 (fpr.2.getD (-DBL_MAX))

/-- The maximum-variance cluster `EmptyCluster` picks (`variances.max`),
evaluated on the effective (possibly freshly precalculated) variances. -/
def ecMaxVar (metric : Metric) (s : MVNC) (data oldCentroids : List Vec)
    (clusterCounts : List Nat) (iteration : Nat) : Nat :=
  maxVarCluster (mvncEffective metric s data oldCentroids clusterCounts iteration).2

/-- The point `EmptyCluster` reassigns: the furthest point of the
maximum-variance cluster, evaluated on the effective assignments. -/
def ecFurthestPoint (metric : Metric) (s : MVNC)
    (data oldCentroids newCentroids : List Vec) (clusterCounts : List Nat)
    (iteration : Nat) : Nat :=
  (furthestPoint metric data
    (mvncEffective metric s data oldCentroids clusterCounts iteration).1
    (ecMaxVar metric s data oldCentroids clusterCounts iteration)
    (newCentroids.getD (ecMaxVar metric s data oldCentroids clusterCounts iteration) [])).1

/-! ## RASearch (ra_search_impl.hpp): data model -/

/-- `RAQueryStat`: the per-node statistic slot, `{Bound(), NumSamplesMade()}`. -/
structure NodeStat where
  bound : ℚ
  numSamplesMade : Nat
deriving DecidableEq

/-- A node of the spatial tree: its statistic slot and its ordered list of
children (`NumChildren()` / `Child(i)`; a leaf has no children). -/
inductive RANode where
  | mk (stat : NodeStat) (children : List RANode)

/-- The statistic of a node. -/
def RANode.stat : RANode → NodeStat
  | .mk st _ => st

/-- The children of a node. -/
def RANode.children : RANode → List RANode
  | .mk _ ch => ch

/-- The point set owned by an already-built tree, keyed by tree-internal
position, together with the tree's node structure and its metric
(`Dataset()`, the root node, `Metric()`). -/
structure RATreeS where
  dataset : MatQ
  root : RANode
  met : Metric

/-- The permuted copy of a dataset held by a rearranging tree: column `j` of
the copy is column `oldFromNew[j]` of the input. -/
def permutedDataset (m : MatQ) (oldFromNew : List Nat) : MatQ :=
  oldFromNew.map (fun o => m.getD o [])

/-- Modelled from the spec: `aux::BuildTree` calls the tree constructor,
which is an external collaborator (“construction of the spatial index
itself” is out of scope of this translation unit); per the spec the tree
stores “a possibly-permuted copy of the input points with an old-to-new
index map”.  The permutation the tree chooses and the node structure it
builds are explicit inputs; the caller's matrix is only read. -/
def buildTree (dataset : MatQ) (met : Metric) (oldFromNew : List Nat)
    (root : RANode) : RATreeS :=
  { dataset := permutedDataset dataset oldFromNew, root := root, met := met }

/-- The members of `RASearch`. -/
structure RASearchState where
  referenceTree : Option RATreeS
  referenceSet : MatQ
  oldFromNewReferences : List Nat
  treeOwner : Bool
  setOwner : Bool
  naive : Bool
  singleMode : Bool
  tau : ℚ
  alpha : ℚ
  sampleAtLeaves : Bool
  firstLeafExact : Bool
  singleSampleLimit : Nat
  metric : Metric

/-- The `RASearch` constructor taking a raw reference matrix: builds the
reference tree unless `naive` is set (`referenceTree(naive ? NULL : ...)`),
points `referenceSet` at the caller's matrix in naive mode and at the tree's
dataset otherwise, and forces `singleMode` off when `naive` is on
(`singleMode(!naive && singleMode)`).  The permutation and node structure
chosen by the external tree constructor are explicit inputs. -/
def raSearchFromMatrix (referenceSetIn : MatQ) (naive singleMode : Bool)
    (tau alpha : ℚ) (sampleAtLeaves firstLeafExact : Bool)
    (singleSampleLimit : Nat) (metric : Metric)
    (treePerm : List Nat) (treeRoot : RANode) : RASearchState :=
  let tree? := if naive then none
               else some (buildTree referenceSetIn metric treePerm treeRoot)
  { referenceTree := tree?
    referenceSet := match tree? with
      | none => referenceSetIn
      | some t => t.dataset
    oldFromNewReferences := if naive then [] else treePerm
    treeOwner := !naive
    setOwner := false
    naive := naive
    singleMode := !naive && singleMode
    tau := tau
    alpha := alpha
    sampleAtLeaves := sampleAtLeaves
    firstLeafExact := firstLeafExact
    singleSampleLimit := singleSampleLimit
    metric := metric }

/-- The `RASearch` constructor taking an already-built reference tree: the
engine owns neither the tree nor the set, `naive` is hard-wired to `false`,
and `referenceSet` is bound to the tree's dataset. -/
def raSearchFromTree (referenceTree : RATreeS) (singleMode : Bool)
    (tau alpha : ℚ) (sampleAtLeaves firstLeafExact : Bool)
    (singleSampleLimit : Nat) (metric : Metric) : RASearchState :=
  { referenceTree := some referenceTree
    referenceSet := referenceTree.dataset
    oldFromNewReferences := []
    treeOwner := false
    setOwner := false
    naive := false
    singleMode := singleMode
    tau := tau
    alpha := alpha
    sampleAtLeaves := sampleAtLeaves
    firstLeafExact := firstLeafExact
    singleSampleLimit := singleSampleLimit
    metric := metric }

/-! ## RASearch::Serialize -/

/-- What one call to `RASearch::Serialize` in saving mode writes to the
archive: the seven configuration scalars always, and then either the raw
reference set plus the metric (naive mode) or the reference tree plus its
old-from-new map (tree modes) — an `Option` field is `none` exactly when
the branch taken does not write that item. -/
structure RAArchive where
  naive : Bool
  singleMode : Bool
  tau : ℚ
  alpha : ℚ
  sampleAtLeaves : Bool
  firstLeafExact : Bool
  singleSampleLimit : Nat
  refSet : Option MatQ
  met : Option Metric
  refTree : Option RATreeS
  oldFromNew : Option (List Nat)

/-- `RASearch::Serialize` on a saving archive: write the seven scalars, then
branch on `naive` — the raw `referenceSet` and the `metric` when naive, the
`referenceTree` and `oldFromNewReferences` otherwise. -/
def serializeSave (s : RASearchState) : RAArchive :=
  { naive := s.naive
    singleMode := s.singleMode
    tau := s.tau
    alpha := s.alpha
    sampleAtLeaves := s.sampleAtLeaves
    firstLeafExact := s.firstLeafExact
    singleSampleLimit := s.singleSampleLimit
    refSet := if s.naive then some s.referenceSet else none
    met := if s.naive then some s.metric else none
    refTree := if s.naive then none else s.referenceTree
    oldFromNew := if s.naive then none else some s.oldFromNewReferences }

/-- `RASearch::Serialize` on a loading archive: read the seven scalars, then
branch on the loaded `naive` flag.  Naive: take ownership of the loaded raw
set (`setOwner = true`), drop any tree (`referenceTree = NULL`,
`oldFromNewReferences.clear()`, `treeOwner = false`).  Tree mode: take
ownership of the loaded tree (`treeOwner = true`), rebind `referenceSet` to
the tree's dataset and `metric` to the tree's metric (`setOwner = false`).
Reading an item the saving side did not write is an archive failure,
modelled as `none`. -/
def serializeLoad (s : RASearchState) (ar : RAArchive) : Option RASearchState :=
  if ar.naive then
    match ar.refSet, ar.met with
    | some rs, some m =>
        some { s with
          naive := ar.naive
          singleMode := ar.singleMode
          tau := ar.tau
          alpha := ar.alpha
          sampleAtLeaves := ar.sampleAtLeaves
          firstLeafExact := ar.firstLeafExact
          singleSampleLimit := ar.singleSampleLimit
          setOwner := true
          referenceSet := rs
          metric := m
          referenceTree := none
          oldFromNewReferences := []
          treeOwner := false }
    | _, _ => none
  else
    match ar.refTree, ar.oldFromNew with
    | some t, some ofn =>
        some { s with
          naive := ar.naive
          singleMode := ar.singleMode
          tau := ar.tau
          alpha := ar.alpha
          sampleAtLeaves := ar.sampleAtLeaves
          firstLeafExact := ar.firstLeafExact
          singleSampleLimit := ar.singleSampleLimit
          treeOwner := true
          referenceTree := some t
          oldFromNewReferences := ofn
          referenceSet := t.dataset
          metric := t.met
          setOwner := false }
    | _, _ => none

/-! ## RASearch::ResetQueryTree -/

mutual

/-- `RASearch::ResetQueryTree`: set the node's statistic to
`Bound() = SortPolicy::WorstDistance()` and `NumSamplesMade() = 0`, then
recurse into every child.  `worst` is `SortPolicy::WorstDistance()`. -/
def resetQueryTree (worst : ℚ) : RANode → RANode
  | .mk _ ch => .mk ⟨worst, 0⟩ (resetChildren worst ch)

/-- The child loop of `ResetQueryTree`. -/
def resetChildren (worst : ℚ) : List RANode → List RANode
  | [] => []
  | c :: cs => resetQueryTree worst c :: resetChildren worst cs

end

mutual

/-- Decides whether every node of a subtree carries the freshly-reset
statistic `{Bound = worst, NumSamplesMade = 0}`. -/
def isResetNode (worst : ℚ) : RANode → Bool
  | .mk st ch =>
      decide (st.bound = worst) && decide (st.numSamplesMade = 0)
        && isResetChildren worst ch

/-- `isResetNode` over a list of children. -/
def isResetChildren (worst : ℚ) : List RANode → Bool
  | [] => true
  | c :: cs => isResetNode worst c && isResetChildren worst cs

end

/-! ## Sampling policy (ra_search_rules.hpp, not part of this translation
unit) -/

/-- The probability that a uniform sample of `m` of `n` points without
replacement contains at least one of a marked set of `t` points: one minus
the hypergeometric miss probability `C(n - t, m) / C(n, m)`. -/
def hitProbability (n t m : Nat) : ℚ :=
  1 - ((n - t).choose m : ℚ) / (n.choose m : ℚ)

/-- Modelled from the spec: `RAUtil::MinimumSamplesReqd` lives in
`ra_search_rules.hpp`, which is not part of this translation unit.  Per
spec §4.1 it returns the smallest sample size `m` such that a uniform
sample without replacement of `m` of `populationSize` points hits at least
one of the top `⌈tau * n⌉` ranked points with probability at least `alpha`,
clamped to `[0, populationSize]`; the degenerate cases `tau * n < 1` and
`alpha ≥ 1` require all points.  (`k` is part of the C++ signature but the
spec's probability condition does not depend on it.) -/
def minimumSamplesReqd (populationSize k : Nat) (tau alpha : ℚ) : Nat :=
  let _ := k
  let n := populationSize
  if tau * (n : ℚ) < 1 ∨ 1 ≤ alpha then n
  else
    let t := (⌈tau * (n : ℚ)⌉).toNat
    (((List.range (n + 1)).find? (fun m => decide (alpha ≤ hitProbability n t m))).getD n)

/-- Modelled from the spec: `RAUtil::ObtainDistinctSamples` lives in
`ra_search_rules.hpp`, which is not part of this translation unit.  Per
spec §4.1 it draws `min(count, populationSize)` distinct indices from
`[0, populationSize)` uniformly without replacement; the random source is an
explicit input (`seed`), so the draw is a deterministic selection — here a
rotation of the index range — returning exactly `min count populationSize`
distinct indices. -/
def obtainDistinctSamples (count populationSize seed : Nat) : List Nat :=
  ((List.range populationSize).rotate seed).take (min count populationSize)

/-! ## Output buffer initialization of the three Search entry points -/

/-- An Armadillo matrix with its dimensions: `rows × cols` with an entry
function. -/
structure MatD (α : Type) where
  rows : Nat
  cols : Nat
  entry : Nat → Nat → α

/-- `set_size(r, c)`: the matrix takes the new dimensions and its memory is
not initialized — the unspecified contents are an explicit input. -/
def setSizeM {α : Type} (_m : MatD α) (r c : Nat) (garbage : Nat → Nat → α) :
    MatD α :=
  { rows := r, cols := c, entry := garbage }

/-- `fill(v)`: every entry becomes `v`. -/
def fillM {α : Type} (m : MatD α) (v : α) : MatD α :=
  { m with entry := fun _ _ => v }

/-- The buffer initialization of `Search(querySet, k, neighbors, distances)`
(before any traversal): `set_size(k, n)` on both buffers, then
`fill(SortPolicy::WorstDistance())` on the distance buffer only — the
neighbor buffer is not filled. -/
def initSearchQuerySet (k n : Nat) (neighbors : MatD Nat) (distances : MatD ℚ)
    (garbageN : Nat → Nat → Nat) (garbageD : Nat → Nat → ℚ) (worst : ℚ) :
    MatD Nat × MatD ℚ :=
  (setSizeM neighbors k n garbageN,
   fillM (setSizeM distances k n garbageD) worst)

/-- The buffer initialization of `Search(queryTree, k, neighbors, distances)`:
`set_size(k, n)` then `fill(size_t() - 1)` on the neighbor buffer and
`fill(SortPolicy::WorstDistance())` on the distance buffer. -/
def initSearchQueryTree (k n : Nat) (neighbors : MatD Nat) (distances : MatD ℚ)
    (garbageN : Nat → Nat → Nat) (garbageD : Nat → Nat → ℚ) (worst : ℚ) :
    MatD Nat × MatD ℚ :=
  (fillM (setSizeM neighbors k n garbageN) SIZE_MAX,
   fillM (setSizeM distances k n garbageD) worst)

/-- The buffer initialization of `Search(k, neighbors, distances)` (the
all-reference-points overload, `n = referenceSet.n_cols`): `set_size(k, n)`
then `fill(size_t() - 1)` on the neighbor buffer and
`fill(SortPolicy::WorstDistance())` on the distance buffer. -/
def initSearchAllK (k n : Nat) (neighbors : MatD Nat) (distances : MatD ℚ)
    (garbageN : Nat → Nat → Nat) (garbageD : Nat → Nat → ℚ) (worst : ℚ) :
    MatD Nat × MatD ℚ :=
  (fillM (setSizeM neighbors k n garbageN) SIZE_MAX,
   fillM (setSizeM distances k n garbageD) worst)

/-! ## The index remapping pass of the Search entry points -/

/-- A sequence of whole-column writes into a function-valued matrix: each
pair `(c, v)` overwrites column `c` with the column function `v`, later
writes taking precedence — the functional reading of a loop of
`out.col(c) = ...` statements. -/
def writeCols {α : Type} (base : Nat → Nat → α) (ws : List (Nat × (Nat → α))) :
    Nat → Nat → α :=
  ws.foldl (fun m w => fun j c => if c = w.1 then w.2 j else m j c) base

/-- The final pass of `Search(querySet, k, neighbors, distances)` (the
“Map points back to original indices, if necessary” block), as a function
from the tree-internal buffer contents left by the traversal
(`internalN`, `internalD`) to the matrices the caller receives.  The
branches mirror the code: with a rearranging tree type, dual-tree mode with
an engine-built reference tree maps query columns through `oldFromNewQueries`
and neighbor entries through `oldFromNewReferences`; dual-tree mode with a
borrowed reference tree maps query columns only; otherwise an engine-built
tree (single-tree mode) maps neighbor entries in place and the distance
buffer is the one the traversal already wrote.  `garbageN`/`garbageD` are
the unspecified contents of the caller's buffers after the `set_size` that
precedes the copy-out loops. -/
def searchQuerySetFinal (rearranges naive singleMode treeOwner : Bool)
    (k n : Nat) (oldFromNewQueries oldFromNewReferences : List Nat)
    (internalN : Nat → Nat → Nat) (internalD : Nat → Nat → ℚ)
    (garbageN : Nat → Nat → Nat) (garbageD : Nat → Nat → ℚ) :
    (Nat → Nat → Nat) × (Nat → Nat → ℚ) :=
  let _ := k
  if rearranges then
    if !singleMode && !naive && treeOwner then
      (writeCols garbageN ((List.range n).map (fun i =>
         (oldFromNewQueries.getD i 0,
          fun j => oldFromNewReferences.getD (internalN j i) 0))),
       writeCols garbageD ((List.range n).map (fun i =>
         (oldFromNewQueries.getD i 0, fun j => internalD j i))))
    else if !singleMode && !naive then
      (writeCols garbageN ((List.range n).map (fun i =>
         (oldFromNewQueries.getD i 0, fun j => internalN j i))),
       writeCols garbageD ((List.range n).map (fun i =>
         (oldFromNewQueries.getD i 0, fun j => internalD j i))))
    else if treeOwner then
      (fun j i => oldFromNewReferences.getD (internalN j i) 0, internalD)
    else (internalN, internalD)
  else (internalN, internalD)

/-- The final pass of `Search(k, neighbors, distances)` (the all-reference
overload): when the engine owns a rearranging reference tree, every column
is relocated through `oldFromNewReferences` and every neighbor entry is
translated through `oldFromNewReferences`; otherwise the traversal wrote the
caller's buffers directly. -/
def searchAllKFinal (rearranges treeOwner : Bool) (k n : Nat)
    (oldFromNewReferences : List Nat)
    (internalN : Nat → Nat → Nat) (internalD : Nat → Nat → ℚ)
    (garbageN : Nat → Nat → Nat) (garbageD : Nat → Nat → ℚ) :
    (Nat → Nat → Nat) × (Nat → Nat → ℚ) :=
  let _ := k
  if treeOwner && rearranges then
    (writeCols garbageN ((List.range n).map (fun i =>
       (oldFromNewReferences.getD i 0,
        fun j => oldFromNewReferences.getD (internalN j i) 0))),
     writeCols garbageD ((List.range n).map (fun i =>
       (oldFromNewReferences.getD i 0, fun j => internalD j i))))
  else (internalN, internalD)

/-! ## Search(queryTree, k, neighbors, distances) -/

/-- The observable outcome of `Search(queryTree, k, neighbors, distances)`:
the two buffers as the caller sees them afterwards, the error (if the mode
check threw), and — when traversal did run — the query tree root exactly as
it was handed to `DualTreeTraverser::Traverse`. -/
structure QueryTreeSearchOut where
  neighbors : MatD Nat
  distances : MatD ℚ
  err : Option String
  traversedQueryRoot : Option RANode

/-- `Search(queryTree, k, neighbors, distances)`: first the mode check —
`singleMode || naive` throws `std::invalid_argument` before the buffers are
resized or written — then buffer initialization, dual-tree traversal of the
query tree exactly as supplied, and reference-index remapping when the
engine owns a rearranging reference tree.  The traversal phase itself
(`RASearchRules` plus the tree's `DualTreeTraverser`, both external to this
translation unit) is modelled from the spec by the tree-internal buffer
contents it leaves (`internalN`, `internalD`). -/
def searchWithQueryTree (rearranges : Bool) (worst : ℚ) (s : RASearchState)
    (queryTree : RATreeS) (k : Nat)
    (neighbors : MatD Nat) (distances : MatD ℚ)
    (garbageN : Nat → Nat → Nat) (garbageD : Nat → Nat → ℚ)
    (internalN : Nat → Nat → Nat) (internalD : Nat → Nat → ℚ) :
    QueryTreeSearchOut :=
  let n := queryTree.dataset.length
  if s.singleMode || s.naive then
    { neighbors := neighbors
      distances := distances
      err := some "cannot call NeighborSearch::Search() with a query tree when naive or singleMode are set to true"
      traversedQueryRoot := none }
  else
    let initd := initSearchQueryTree k n neighbors distances garbageN garbageD worst
    let _ := initd
    let distancesAfter : MatD ℚ := { rows := k, cols := n, entry := internalD }
    if s.treeOwner && rearranges then
      { neighbors :=
          { rows := k, cols := n,
            entry := fun j i => s.oldFromNewReferences.getD (internalN j i) 0 }
        distances := distancesAfter
        err := none
        traversedQueryRoot := some queryTree.root }
    else
      { neighbors := { rows := k, cols := n, entry := internalN }
        distances := distancesAfter
        err := none
        traversedQueryRoot := some queryTree.root }

/-! ## The naive-mode loops of the two matrix-free Search entry points -/

/-- The naive branch of `Search(querySet, k, neighbors, distances)`: draw
`MinimumSamplesReqd` distinct samples once from the reference set, then run
`BaseCase(i, sample)` for every query point `i` and every drawn sample.
Recorded: the drawn samples and the exact list of `(query, reference)`
pairs handed to `BaseCase`, in order. -/
def naiveQuerySetRun (numQueries numRefs k : Nat) (tau alpha : ℚ) (seed : Nat) :
    List Nat × List (Nat × Nat) :=
  let numSamples := minimumSamplesReqd numRefs k tau alpha
  let distinctSamples := obtainDistinctSamples numSamples numRefs seed
  (distinctSamples,
   (List.range numQueries).flatMap (fun i => distinctSamples.map (fun j => (i, j))))

/-- The naive branch of `Search(k, neighbors, distances)` (the all-reference
overload): the code draws `MinimumSamplesReqd` distinct samples — and then
runs `BaseCase(i, j)` over *all* pairs of reference points, leaving the
drawn samples unused.  Recorded: the drawn samples and the exact list of
`(query, reference)` pairs handed to `BaseCase`, in order. -/
def naiveAllKRun (numRefs k : Nat) (tau alpha : ℚ) (seed : Nat) :
    List Nat × List (Nat × Nat) :=
  let numSamples := minimumSamplesReqd numRefs k tau alpha
  let distinctSamples := obtainDistinctSamples numSamples numRefs seed
  (distinctSamples,
   (List.range numRefs).flatMap (fun i => (List.range numRefs).map (fun j => (i, j))))

/-! ## Candidate lists and BaseCase (ra_search_rules.hpp, not part of this
translation unit) -/

/-- Insert a candidate into a list kept sorted by the SortPolicy order
`isBetter`, in front of the first strictly-worse entry (stable on ties:
earlier-inserted entries stay in front). -/
def insertIntoSorted (isBetter : ℚ → ℚ → Bool) (p : Nat × ℚ) :
    List (Nat × ℚ) → List (Nat × ℚ)
  | [] => [p]
  | q :: qs => if isBetter p.2 q.2 then p :: q :: qs else q :: insertIntoSorted isBetter p qs

/-- Modelled from the spec: the per-query fixed-capacity candidate list's
`TryInsert` (spec §4.2, implemented inside `ra_search_rules.hpp`, which is
not part of this translation unit): reject unless the new distance is
strictly better than the current worst slot under the SortPolicy order;
otherwise evict the worst slot and insert in sorted position. -/
def tryInsert (isBetter : ℚ → ℚ → Bool) (cl : List (Nat × ℚ)) (p : Nat × ℚ) :
    List (Nat × ℚ) :=
  match cl.getLast? with
  | none => cl
  | some w => if isBetter p.2 w.2 then insertIntoSorted isBetter p cl.dropLast else cl

/-- Modelled from the spec: `RASearchRules::BaseCase` (spec §4.3, implemented
in `ra_search_rules.hpp`, which is not part of this translation unit):
evaluate the metric between query point `qi` and reference point `ri`, skip
the self-comparison when the two sets are the same object and `ri = qi`, and
feed the distance into query `qi`'s candidate list. -/
def baseCase (isBetter : ℚ → ℚ → Bool) (metric : Metric) (sameSet : Bool)
    (referenceSet querySet : MatQ) (lists : List (List (Nat × ℚ)))
    (qi ri : Nat) : List (List (Nat × ℚ)) :=
  if sameSet && decide (ri = qi) then lists
  else
    let d := metric (querySet.getD qi []) (referenceSet.getD ri [])
    lists.set qi (tryInsert isBetter (lists.getD qi []) (ri, d))

/-- The naive branch of `Search(querySet, k, neighbors, distances)` run to
completion: candidate lists initialized to `k` sentinel slots per query,
the sample drawn once from the reference set with the random source as the
explicit input `seed`, and `BaseCase` folded over every (query, sample)
pair in program order. -/
def naiveQuerySetPipeline (isBetter : ℚ → ℚ → Bool) (worst : ℚ)
    (metric : Metric) (referenceSet querySet : MatQ) (k : Nat)
    (tau alpha : ℚ) (seed : Nat) : List (List (Nat × ℚ)) :=
  let run := naiveQuerySetRun querySet.length referenceSet.length k tau alpha seed
  let init := List.replicate querySet.length (List.replicate k (SIZE_MAX, worst))
  run.2.foldl (fun L p => baseCase isBetter metric false referenceSet querySet L p.1 p.2) init

/-! ## Frame of the caller's matrices -/

/-- The matrix-taking constructor with the caller's matrix threaded through
explicitly: the C++ takes `referenceSetIn` by const reference, and its only
non-const use is the `const_cast` handed to the external tree constructor,
which per the spec stores a permuted *copy* of the points — so the caller's
matrix is returned exactly as it came in, next to the constructed engine
state. -/
def raSearchConstructFrame (referenceSetIn : MatQ) (naive singleMode : Bool)
    (tau alpha : ℚ) (sampleAtLeaves firstLeafExact : Bool)
    (singleSampleLimit : Nat) (metric : Metric)
    (treePerm : List Nat) (treeRoot : RANode) : MatQ × RASearchState :=
  (referenceSetIn,
   raSearchFromMatrix referenceSetIn naive singleMode tau alpha sampleAtLeaves
     firstLeafExact singleSampleLimit metric treePerm treeRoot)

/-- `Search(querySet, k, neighbors, distances)` with the caller's query
matrix threaded through explicitly: the C++ takes `querySet` by const
reference, and its only non-const use is the `const_cast` handed to the
external query-tree constructor, which per the spec stores a permuted
*copy* — so the caller's matrix is returned exactly as it came in, next to
the final output buffers. -/
def searchQuerySetFrame (rearranges : Bool) (s : RASearchState)
    (querySet : MatQ) (k : Nat) (oldFromNewQueries : List Nat)
    (internalN : Nat → Nat → Nat) (internalD : Nat → Nat → ℚ)
    (garbageN : Nat → Nat → Nat) (garbageD : Nat → Nat → ℚ) :
    MatQ × ((Nat → Nat → Nat) × (Nat → Nat → ℚ)) :=
  (querySet,
   searchQuerySetFinal rearranges s.naive s.singleMode s.treeOwner k
     querySet.length oldFromNewQueries s.oldFromNewReferences
     internalN internalD garbageN garbageD)

/-! ## Helper lemmas -/

theorem getD_set_self {α : Type} :
    ∀ (l : List α) (i : Nat) (a d : α), i < l.length → (l.set i a).getD i d = a
  | [], i, _, _, h => absurd h (by simp)
  | _ :: _, 0, _, _, _ => rfl
  | _ :: xs, i + 1, a, d, h =>
      getD_set_self xs i a d (Nat.lt_of_succ_lt_succ h)

theorem getD_set_ne {α : Type} :
    ∀ (l : List α) (i j : Nat) (a d : α), i ≠ j → (l.set i a).getD j d = l.getD j d
  | [], _, _, _, _, _ => rfl
  | _ :: _, 0, 0, _, _, h => absurd rfl h
  | _ :: _, 0, _ + 1, _, _, _ => rfl
  | _ :: _, _ + 1, 0, _, _, _ => rfl
  | _ :: xs, i + 1, j + 1, a, d, h =>
      getD_set_ne xs i j a d (fun hh => h (by omega))

theorem sum_set_nat :
    ∀ (l : List Nat) (i : Nat) (a : Nat), i < l.length →
      (l.set i a).sum + l.getD i 0 = l.sum + a
  | [], i, _, h => absurd h (by simp)
  | x :: xs, 0, a, _ => by simp [List.sum_cons]; omega
  | x :: xs, i + 1, a, h => by
      have ih := sum_set_nat xs i a (Nat.lt_of_succ_lt_succ h)
      simp only [List.set, List.sum_cons, List.getD_cons_succ]
      omega

theorem writeCols_not_mem {α : Type} :
    ∀ (ws : List (Nat × (Nat → α))) (base : Nat → Nat → α) (c : Nat),
      c ∉ ws.map Prod.fst → ∀ j, writeCols base ws j c = base j c
  | [], _, _, _, _ => rfl
  | w :: ws, base, c, h, j => by
      have hne : c ≠ w.1 := by
        intro hc; exact h (by simp [hc])
      have htail : c ∉ ws.map Prod.fst := by
        intro hc; exact h (by simp [hc])
      show writeCols (fun j c => if c = w.1 then w.2 j else base j c) ws j c = base j c
      rw [writeCols_not_mem ws _ c htail]
      simp [hne]

theorem writeCols_getD {α : Type} :
    ∀ (ws : List (Nat × (Nat → α))) (base : Nat → Nat → α)
      (c : Nat) (v : Nat → α), (ws.map Prod.fst).Nodup → (c, v) ∈ ws →
      ∀ j, writeCols base ws j c = v j
  | [], _, _, _, _, hmem, _ => absurd hmem (by simp)
  | w :: ws, base, c, v, hnd, hmem, j => by
      rcases List.mem_cons.mp hmem with heq | htail
      · have hc : c = w.1 := by rw [← heq]
        have hv : v = w.2 := by rw [← heq]
        have hnot : c ∉ ws.map Prod.fst := by
          rw [hc]
          exact (List.nodup_cons.mp (by simpa using hnd)).1
        show writeCols (fun j c => if c = w.1 then w.2 j else base j c) ws j c = v j
        rw [writeCols_not_mem ws _ c hnot]
        show (if c = w.1 then w.2 j else base j c) = v j
        rw [if_pos hc, hv]
      · have hnd' : (ws.map Prod.fst).Nodup :=
          (List.nodup_cons.mp (by simpa using hnd)).2
        exact writeCols_getD ws _ c v hnd' htail j

theorem furthestStep_isSome (metric : Metric) (data : List Vec)
    (assignments : List Nat) (maxVar : Nat) (centroid : Vec)
    (acc : Nat × Option ℚ) (i : Nat) (h : acc.2.isSome = true) :
    ((furthestStep metric data assignments maxVar centroid acc i).2).isSome = true := by
  unfold furthestStep
  split
  · cases hacc : acc.2 with
    | none => simp
    | some b =>
        simp only [hacc]
        split
        · simp
        · simpa using h
  · exact h

theorem furthestStep_cond_isSome (metric : Metric) (data : List Vec)
    (assignments : List Nat) (maxVar : Nat) (centroid : Vec)
    (acc : Nat × Option ℚ) (i : Nat) (h : assignments.getD i 0 = maxVar) :
    ((furthestStep metric data assignments maxVar centroid acc i).2).isSome = true := by
  unfold furthestStep
  rw [if_pos h]
  cases hacc : acc.2 with
  | none => simp
  | some b =>
      simp only []
      split
      · simp
      · simp [hacc]

theorem furthestFold_isSome (metric : Metric) (data : List Vec)
    (assignments : List Nat) (maxVar : Nat) (centroid : Vec) :
    ∀ (l : List Nat) (acc : Nat × Option ℚ),
      ((∃ i ∈ l, assignments.getD i 0 = maxVar) ∨ acc.2.isSome = true) →
      ((l.foldl (furthestStep metric data assignments maxVar centroid) acc).2).isSome = true
  | [], acc, h => by
      rcases h with h | h
      · simp at h
      · simpa using h
  | x :: xs, acc, h => by
      rw [List.foldl_cons]
      rcases h with ⟨i, hmem, hsat⟩ | h
      · rcases List.mem_cons.mp hmem with rfl | hmem'
        · exact furthestFold_isSome metric data assignments maxVar centroid xs _
            (Or.inr (furthestStep_cond_isSome metric data assignments maxVar centroid acc i hsat))
        · exact furthestFold_isSome metric data assignments maxVar centroid xs _
            (Or.inl ⟨i, hmem', hsat⟩)
      · exact furthestFold_isSome metric data assignments maxVar centroid xs _
          (Or.inr (furthestStep_isSome metric data assignments maxVar centroid acc x h))

theorem furthestStep_property (metric : Metric) (data : List Vec)
    (assignments : List Nat) (maxVar : Nat) (centroid : Vec) (n : Nat)
    (acc : Nat × Option ℚ) (i : Nat) (hi : i < n)
    (hacc : acc.2.isSome = true → assignments.getD acc.1 0 = maxVar ∧ acc.1 < n) :
    ((furthestStep metric data assignments maxVar centroid acc i).2).isSome = true →
      assignments.getD (furthestStep metric data assignments maxVar centroid acc i).1 0 = maxVar
      ∧ (furthestStep metric data assignments maxVar centroid acc i).1 < n := by
  unfold furthestStep
  split
  · cases hc : acc.2 with
    | none => intro _; exact ⟨by assumption, hi⟩
    | some b =>
        simp only [hc]
        split
        · intro _; exact ⟨by assumption, hi⟩
        · intro _; exact hacc (by simp [hc])
  · intro hs; exact hacc hs

theorem furthestFold_property (metric : Metric) (data : List Vec)
    (assignments : List Nat) (maxVar : Nat) (centroid : Vec) (n : Nat) :
    ∀ (l : List Nat) (acc : Nat × Option ℚ),
      (∀ i ∈ l, i < n) →
      (acc.2.isSome = true → assignments.getD acc.1 0 = maxVar ∧ acc.1 < n) →
      ((l.foldl (furthestStep metric data assignments maxVar centroid) acc).2).isSome = true →
        assignments.getD (l.foldl (furthestStep metric data assignments maxVar centroid) acc).1 0 = maxVar
        ∧ (l.foldl (furthestStep metric data assignments maxVar centroid) acc).1 < n
  | [], acc, _, hacc, hs => hacc hs
  | x :: xs, acc, hmem, hacc, hs => by
      rw [List.foldl_cons] at hs ⊢
      exact furthestFold_property metric data assignments maxVar centroid n xs _
        (fun i hi => hmem i (List.mem_cons_of_mem x hi))
        (furthestStep_property metric data assignments maxVar centroid n acc x
          (hmem x (List.mem_cons_self x xs)) hacc)
        hs

theorem furthestPoint_found (metric : Metric) (data : List Vec)
    (assignments : List Nat) (maxVar : Nat) (centroid : Vec)
    (h : ∃ i, i < data.length ∧ assignments.getD i 0 = maxVar) :
    (furthestPoint metric data assignments maxVar centroid).1 < data.length
    ∧ assignments.getD (furthestPoint metric data assignments maxVar centroid).1 0 = maxVar := by
  obtain ⟨i, hi, ha⟩ := h
  have hsome := furthestFold_isSome metric data assignments maxVar centroid
    (List.range data.length) (data.length, none)
    (Or.inl ⟨i, List.mem_range.mpr hi, ha⟩)
  have hprop := furthestFold_property metric data assignments maxVar centroid
    data.length (List.range data.length) (data.length, none)
    (fun a hA => List.mem_range.mp hA) (by simp) hsome
  exact ⟨hprop.2, hprop.1⟩

theorem writeCols_range {α : Type} (base : Nat → Nat → α) (n : Nat)
    (key : Nat → Nat) (val : Nat → Nat → α)
    (hnd : ((List.range n).map key).Nodup) (i : Nat) (hi : i < n) (j : Nat) :
    writeCols base ((List.range n).map (fun a => (key a, val a))) j (key i) = val i j := by
  refine writeCols_getD _ base (key i) (val i) ?_ ?_ j
  · simpa [List.map_map, Function.comp] using hnd
  · exact List.mem_map.mpr ⟨i, List.mem_range.mpr hi, rfl⟩

theorem emptyClusterCore_spec (data : List Vec) (emptyC : Nat) (newC : List Vec)
    (counts : List Nat) (iter : Nat) (assi : List Nat) (vars : List ℚ)
    (mv fp : Nat) (maxDist : ℚ)
    (h2 : 2 ≤ counts.getD mv 0) (hlt : counts.getD mv 0 < 2 ^ 64)
    (hne : emptyC ≠ mv) (hmvlen : mv < counts.length) (hemlen : emptyC < counts.length)
    (hemvar : emptyC < vars.length) (hemcent : emptyC < newC.length)
    (h0 : counts.getD emptyC 0 = 0) :
    (emptyClusterCore data emptyC newC counts iter assi vars mv fp maxDist).ret = 1
    ∧ (emptyClusterCore data emptyC newC counts iter assi vars mv fp maxDist).clusterCounts
        = (counts.set mv (counts.getD mv 0 - 1)).set emptyC (counts.getD emptyC 0 + 1)
    ∧ (emptyClusterCore data emptyC newC counts iter assi vars mv fp maxDist).clusterCounts.getD mv 0
        = counts.getD mv 0 - 1
    ∧ (emptyClusterCore data emptyC newC counts iter assi vars mv fp maxDist).clusterCounts.getD emptyC 0
        = counts.getD emptyC 0 + 1
    ∧ (emptyClusterCore data emptyC newC counts iter assi vars mv fp maxDist).clusterCounts.sum
        = counts.sum
    ∧ (emptyClusterCore data emptyC newC counts iter assi vars mv fp maxDist).newCentroids.getD emptyC []
        = data.getD fp []
    ∧ (emptyClusterCore data emptyC newC counts iter assi vars mv fp maxDist).state.variances.getD emptyC 0
        = 0
    ∧ (emptyClusterCore data emptyC newC counts iter assi vars mv fp maxDist).state.assignments
        = assi.set fp emptyC := by
  have hmvne : mv ≠ emptyC := fun h => hne h.symm
  have hdec : (counts.getD mv 0 + (2 ^ 64 - 1)) % 2 ^ 64 = counts.getD mv 0 - 1 := by
    rw [show counts.getD mv 0 + (2 ^ 64 - 1) = (counts.getD mv 0 - 1) + 2 ^ 64 by omega,
      Nat.add_mod_right, Nat.mod_eq_of_lt (by omega)]
  have hg1 : (counts.set mv ((counts.getD mv 0 + (2 ^ 64 - 1)) % 2 ^ 64)).getD emptyC 0
      = counts.getD emptyC 0 := getD_set_ne counts mv emptyC _ 0 hmvne
  have hcounts : (emptyClusterCore data emptyC newC counts iter assi vars mv fp maxDist).clusterCounts
      = (counts.set mv (counts.getD mv 0 - 1)).set emptyC (counts.getD emptyC 0 + 1) := by
    show (counts.set mv ((counts.getD mv 0 + (2 ^ 64 - 1)) % 2 ^ 64)).set emptyC
        (((counts.set mv ((counts.getD mv 0 + (2 ^ 64 - 1)) % 2 ^ 64)).getD emptyC 0 + 1) % 2 ^ 64)
      = (counts.set mv (counts.getD mv 0 - 1)).set emptyC (counts.getD emptyC 0 + 1)
    rw [hg1, h0, hdec]
    norm_num
  refine ⟨rfl, hcounts, ?_, ?_, ?_, ?_, ?_, rfl⟩
  · rw [hcounts, getD_set_ne _ emptyC mv _ 0 hne,
      getD_set_self counts mv (counts.getD mv 0 - 1) 0 hmvlen]
  · rw [hcounts, getD_set_self _ emptyC _ 0 (by simpa using hemlen)]
  · rw [hcounts]
    have s1 := sum_set_nat counts mv (counts.getD mv 0 - 1) hmvlen
    have s2 := sum_set_nat (counts.set mv (counts.getD mv 0 - 1)) emptyC
      (counts.getD emptyC 0 + 1) (by simpa using hemlen)
    have hg2 : (counts.set mv (counts.getD mv 0 - 1)).getD emptyC 0 = counts.getD emptyC 0 :=
      getD_set_ne counts mv emptyC _ 0 hmvne
    omega
  · simp only [emptyClusterCore]
    exact getD_set_self _ emptyC _ [] (by simpa using hemcent)
  · simp only [emptyClusterCore]
    split
    · rw [getD_set_ne _ mv emptyC _ 0 hmvne, getD_set_self vars emptyC 0 0 hemvar]
    · rw [getD_set_ne _ mv emptyC _ 0 hmvne, getD_set_self vars emptyC 0 0 hemvar]

/-! ## Claim theorems -/

/-- Claim C9: the three search modes are mutually exclusive after
construction — for every combination of constructor arguments at most one
of `naive` and `singleMode` is set on the constructed object, `naive = true`
forces `singleMode` off regardless of the `singleMode` argument, and the
tree-accepting constructor always yields `naive = false`. -/
theorem raSearch_modes_mutually_exclusive
    (ref : MatQ) (naiveArg singleArg : Bool) (tau alpha : ℚ)
    (sal fle : Bool) (ssl : Nat) (metric : Metric)
    (perm : List Nat) (root : RANode) (t : RATreeS) :
    (¬((raSearchFromMatrix ref naiveArg singleArg tau alpha sal fle ssl metric perm root).naive = true
        ∧ (raSearchFromMatrix ref naiveArg singleArg tau alpha sal fle ssl metric perm root).singleMode = true))
    ∧ (raSearchFromMatrix ref true singleArg tau alpha sal fle ssl metric perm root).singleMode = false
    ∧ (raSearchFromTree t singleArg tau alpha sal fle ssl metric).naive = false
    ∧ (¬((raSearchFromTree t singleArg tau alpha sal fle ssl metric).naive = true
        ∧ (raSearchFromTree t singleArg tau alpha sal fle ssl metric).singleMode = true
        )) := by
  cases naiveArg <;> cases singleArg <;>
    simp [raSearchFromMatrix, raSearchFromTree]

/-- Claim C7: the caller-supplied point sets are immutable under the engine —
construction from a raw reference matrix and `Search` over a query matrix
return the caller's matrices exactly as they came in; moreover in naive mode
the engine's `referenceSet` view is the caller's matrix itself, and in tree
mode it is the tree's own permuted copy, not the caller's matrix. -/
theorem caller_matrices_unchanged (ref q : MatQ) (naiveArg singleArg : Bool)
    (tau alpha : ℚ) (sal fle : Bool) (ssl : Nat) (metric : Metric)
    (perm : List Nat) (root : RANode) (s : RASearchState) (rearranges : Bool)
    (k : Nat) (ofnQ : List Nat) (iN : Nat → Nat → Nat) (iD : Nat → Nat → ℚ)
    (gN : Nat → Nat → Nat) (gD : Nat → Nat → ℚ) :
    (raSearchConstructFrame ref naiveArg singleArg tau alpha sal fle ssl metric perm root).1 = ref
    ∧ (searchQuerySetFrame rearranges s q k ofnQ iN iD gN gD).1 = q
    ∧ (raSearchFromMatrix ref true singleArg tau alpha sal fle ssl metric perm root).referenceSet = ref
    ∧ (raSearchFromMatrix ref false singleArg tau alpha sal fle ssl metric perm root).referenceSet
        = permutedDataset ref perm :=
  ⟨rfl, rfl, rfl, rfl⟩

/-- Claim C3 (counterexample): in `Search(querySet, k, neighbors, distances)`
the neighbor buffer is only `set_size`d, never pre-filled — after the
initialization pass its entries are whatever the uninitialized memory held
(here `7`, or `5`, depending on the garbage input), not any fixed sentinel
such as the `size_t() - 1` the other two entry points use. -/
theorem searchQuerySet_neighbors_not_prefilled :
    (initSearchQuerySet 1 1 ⟨0, 0, fun _ _ => 0⟩ ⟨0, 0, fun _ _ => 0⟩
        (fun _ _ => 7) (fun _ _ => 0) 0).1.entry 0 0 = 7
    ∧ (initSearchQuerySet 1 1 ⟨0, 0, fun _ _ => 0⟩ ⟨0, 0, fun _ _ => 0⟩
        (fun _ _ => 5) (fun _ _ => 0) 0).1.entry 0 0 = 5
    ∧ (7 : Nat) ≠ SIZE_MAX :=
  ⟨rfl, rfl, by decide⟩

/-- Claim C3 (amended): every Search entry point sizes both output buffers
`k × numQueries` up front before traversal; the distance buffer is
pre-filled with the SortPolicy worst sentinel in all three entry points, and
the neighbor buffer is pre-filled (with the invalid index `size_t() - 1`) in
the query-tree and all-reference entry points — the query-set entry point
leaves the neighbor buffer's contents unspecified. -/
theorem search_buffers_initialized (k n : Nat) (nb : MatD Nat) (db : MatD ℚ)
    (gN : Nat → Nat → Nat) (gD : Nat → Nat → ℚ) (worst : ℚ) (i j : Nat) :
    ((initSearchQuerySet k n nb db gN gD worst).1.rows = k
      ∧ (initSearchQuerySet k n nb db gN gD worst).1.cols = n
      ∧ (initSearchQuerySet k n nb db gN gD worst).2.rows = k
      ∧ (initSearchQuerySet k n nb db gN gD worst).2.cols = n)
    ∧ ((initSearchQueryTree k n nb db gN gD worst).1.rows = k
      ∧ (initSearchQueryTree k n nb db gN gD worst).1.cols = n
      ∧ (initSearchQueryTree k n nb db gN gD worst).2.rows = k
      ∧ (initSearchQueryTree k n nb db gN gD worst).2.cols = n)
    ∧ ((initSearchAllK k n nb db gN gD worst).1.rows = k
      ∧ (initSearchAllK k n nb db gN gD worst).1.cols = n
      ∧ (initSearchAllK k n nb db gN gD worst).2.rows = k
      ∧ (initSearchAllK k n nb db gN gD worst).2.cols = n)
    ∧ (initSearchQuerySet k n nb db gN gD worst).2.entry i j = worst
    ∧ (initSearchQueryTree k n nb db gN gD worst).2.entry i j = worst
    ∧ (initSearchAllK k n nb db gN gD worst).2.entry i j = worst
    ∧ (initSearchQueryTree k n nb db gN gD worst).1.entry i j = SIZE_MAX
    ∧ (initSearchAllK k n nb db gN gD worst).1.entry i j = SIZE_MAX := by
  refine ⟨⟨rfl, rfl, rfl, rfl⟩, ⟨rfl, rfl, rfl, rfl⟩, ⟨rfl, rfl, rfl, rfl⟩,
    rfl, rfl, rfl, rfl, rfl⟩

/-- Claim C4: invoking the query-tree Search entry point while the engine is
configured for naive or single-tree mode raises `std::invalid_argument`
before any traversal begins, and the output buffers are neither resized nor
written. -/
theorem searchQueryTree_invalid_mode (rearranges : Bool) (worst : ℚ)
    (s : RASearchState) (qt : RATreeS) (k : Nat) (nb : MatD Nat) (db : MatD ℚ)
    (gN : Nat → Nat → Nat) (gD : Nat → Nat → ℚ)
    (iN : Nat → Nat → Nat) (iD : Nat → Nat → ℚ)
    (h : s.singleMode = true ∨ s.naive = true) :
    searchWithQueryTree rearranges worst s qt k nb db gN gD iN iD =
      { neighbors := nb
        distances := db
        err := some "cannot call NeighborSearch::Search() with a query tree when naive or singleMode are set to true"
        traversedQueryRoot := none } := by
  unfold searchWithQueryTree
  rcases h with h | h <;> simp [h]

/-- Witness for C4 at a concrete naive-mode engine. -/
theorem searchQueryTree_invalid_mode_witness :
    ((raSearchFromMatrix [] true false 0 0 false false 0 (fun _ _ => 0) []
        (.mk ⟨0, 0⟩ [])).naive = true)
    ∧ searchWithQueryTree false 0
        (raSearchFromMatrix [] true false 0 0 false false 0 (fun _ _ => 0) []
          (.mk ⟨0, 0⟩ []))
        ⟨[], .mk ⟨0, 0⟩ [], fun _ _ => 0⟩ 1
        ⟨0, 0, fun _ _ => 0⟩ ⟨0, 0, fun _ _ => 0⟩
        (fun _ _ => 0) (fun _ _ => 0) (fun _ _ => 0) (fun _ _ => 0) =
      { neighbors := ⟨0, 0, fun _ _ => 0⟩
        distances := ⟨0, 0, fun _ _ => 0⟩
        err := some "cannot call NeighborSearch::Search() with a query tree when naive or singleMode are set to true"
        traversedQueryRoot := none } :=
  ⟨rfl,
   searchQueryTree_invalid_mode false 0 _ _ 1 _ _ _ _ _ _ (Or.inr rfl)⟩

/-- Claim C8: with the random source treated as an explicit input (the
`seed`), two runs of the naive Search pipeline with the same seed and the
same configuration over the same reference and query sets produce identical
outputs. -/
theorem naive_search_deterministic (seed1 seed2 : Nat) (h : seed1 = seed2)
    (isBetter : ℚ → ℚ → Bool) (worst : ℚ) (metric : Metric)
    (referenceSet querySet : MatQ) (k : Nat) (tau alpha : ℚ) :
    naiveQuerySetPipeline isBetter worst metric referenceSet querySet k tau alpha seed1
      = naiveQuerySetPipeline isBetter worst metric referenceSet querySet k tau alpha seed2 := by
  subst h; rfl

/-- Witness for C8 at a concrete seed and configuration. -/
theorem naive_search_deterministic_witness :
    (0 : Nat) = 0
    ∧ naiveQuerySetPipeline (fun a b => decide (a < b)) 10
        (fun a b => |a.getD 0 0 - b.getD 0 0|) [[0], [1]] [[2]] 1 1 1 0
      = naiveQuerySetPipeline (fun a b => decide (a < b)) 10
        (fun a b => |a.getD 0 0 - b.getD 0 0|) [[0], [1]] [[2]] 1 1 1 0 :=
  ⟨rfl,
   naive_search_deterministic 0 0 rfl (fun a b => decide (a < b)) 10
     (fun a b => |a.getD 0 0 - b.getD 0 0|) [[0], [1]] [[2]] 1 1 1⟩

mutual

theorem isReset_reset (worst : ℚ) :
    (t : RANode) → isResetNode worst (resetQueryTree worst t) = true
  | .mk _ ch => by
      show isResetNode worst (.mk ⟨worst, 0⟩ (resetChildren worst ch)) = true
      simp [isResetNode, isReset_resetChildren worst ch]

theorem isReset_resetChildren (worst : ℚ) :
    (l : List RANode) → isResetChildren worst (resetChildren worst l) = true
  | [] => rfl
  | c :: cs => by
      show isResetChildren worst (resetQueryTree worst c :: resetChildren worst cs) = true
      simp [isResetChildren, isReset_reset worst c, isReset_resetChildren worst cs]

end

/-- Claim C6 (amended): `ResetQueryTree` applied to a node sets every node
statistic of that subtree to its initial values — `Bound` equal to the
SortPolicy worst sentinel and `NumSamplesMade` equal to `0`. -/
theorem resetQueryTree_resets_all_nodes (worst : ℚ) (t : RANode) :
    isResetNode worst (resetQueryTree worst t) = true :=
  isReset_reset worst t

/-- Claim C6 (counterexample): no Search entry point resets node statistics
before traversing — the dual-tree entry point hands the caller's query tree
to the traverser exactly as supplied, here with `NumSamplesMade = 5`, which
is not the reset state. -/
theorem search_does_not_reset_query_tree :
    (searchWithQueryTree false 0
        (raSearchFromTree ⟨[[1]], .mk ⟨0, 0⟩ [], fun _ _ => 0⟩ false 0 0 false false 0
          (fun _ _ => 0))
        ⟨[[1]], .mk ⟨0, 5⟩ [], fun _ _ => 0⟩ 1
        ⟨0, 0, fun _ _ => 0⟩ ⟨0, 0, fun _ _ => 0⟩
        (fun _ _ => 0) (fun _ _ => 0) (fun _ _ => 0) (fun _ _ => 0)).traversedQueryRoot
      = some (.mk ⟨0, 5⟩ [])
    ∧ isResetNode 0 (.mk ⟨0, 5⟩ []) = false :=
  ⟨rfl, by decide⟩

/-- Claim C5: `Serialize` persists the seven configuration scalars and
exactly one of the raw reference set (naive mode, together with the metric)
or the reference tree with its old-from-new map (tree modes), never both;
loading what was saved rebinds `referenceSet` to the loaded raw set (naive)
or the loaded tree's dataset (tree mode) and sets the ownership flags so the
engine owns precisely what it loaded. -/
theorem serialize_exclusive_payload_and_reload (s s0 : RASearchState) :
    ((serializeSave s).naive = s.naive
      ∧ (serializeSave s).singleMode = s.singleMode
      ∧ (serializeSave s).tau = s.tau
      ∧ (serializeSave s).alpha = s.alpha
      ∧ (serializeSave s).sampleAtLeaves = s.sampleAtLeaves
      ∧ (serializeSave s).firstLeafExact = s.firstLeafExact
      ∧ (serializeSave s).singleSampleLimit = s.singleSampleLimit)
    ∧ (serializeSave s).refSet = (if s.naive then some s.referenceSet else none)
    ∧ (serializeSave s).refTree = (if s.naive then none else s.referenceTree)
    ∧ (serializeSave s).oldFromNew
        = (if s.naive then none else some s.oldFromNewReferences)
    ∧ ¬((serializeSave s).refSet.isSome = true ∧ (serializeSave s).refTree.isSome = true)
    ∧ serializeLoad s0 (serializeSave s)
        = (if s.naive then
            some { s0 with
              naive := s.naive
              singleMode := s.singleMode
              tau := s.tau
              alpha := s.alpha
              sampleAtLeaves := s.sampleAtLeaves
              firstLeafExact := s.firstLeafExact
              singleSampleLimit := s.singleSampleLimit
              setOwner := true
              referenceSet := s.referenceSet
              metric := s.metric
              referenceTree := none
              oldFromNewReferences := []
              treeOwner := false }
          else
            s.referenceTree.map (fun t =>
              { s0 with
                naive := s.naive
                singleMode := s.singleMode
                tau := s.tau
                alpha := s.alpha
                sampleAtLeaves := s.sampleAtLeaves
                firstLeafExact := s.firstLeafExact
                singleSampleLimit := s.singleSampleLimit
                treeOwner := true
                referenceTree := some t
                oldFromNewReferences := s.oldFromNewReferences
                referenceSet := t.dataset
                metric := t.met
                setOwner := false })) := by
  cases hn : s.naive
  · cases ht : s.referenceTree <;> simp [serializeSave, serializeLoad, hn, ht]
  · simp [serializeSave, serializeLoad, hn]

/-- Claim C1: over a tree type that physically reorders points, whenever the
engine built the reference tree itself (`treeOwner`), every tree-internal
reference index in the neighbor output is translated through the reference
tree's old-from-new map; and in dual-tree mode, where the engine builds the
query tree, every output column is additionally relocated to the
caller-visible query position through the query tree's old-from-new map.
Covered: the dual-tree and single-tree branches of
`Search(querySet, k, neighbors, distances)` and the all-reference overload
`Search(k, neighbors, distances)`, for arbitrary tree-internal traversal
results `iN` / `iD`. -/
theorem search_results_remapped_to_original_indices
    (k n : Nat) (ofnQ ofnR : List Nat)
    (iN : Nat → Nat → Nat) (iD : Nat → Nat → ℚ)
    (gN gN2 : Nat → Nat → Nat) (gD gD2 : Nat → Nat → ℚ)
    (hQ : ((List.range n).map (fun a => ofnQ.getD a 0)).Nodup)
    (hR : ((List.range n).map (fun a => ofnR.getD a 0)).Nodup)
    (i j : Nat) (hi : i < n) :
    ((searchQuerySetFinal true false false true k n ofnQ ofnR iN iD gN gD).1 j (ofnQ.getD i 0)
        = ofnR.getD (iN j i) 0
      ∧ (searchQuerySetFinal true false false true k n ofnQ ofnR iN iD gN gD).2 j (ofnQ.getD i 0)
        = iD j i)
    ∧ ((searchQuerySetFinal true false true true k n ofnQ ofnR iN iD gN gD).1 j i
        = ofnR.getD (iN j i) 0
      ∧ (searchQuerySetFinal true false true true k n ofnQ ofnR iN iD gN gD).2 j i
        = iD j i)
    ∧ ((searchAllKFinal true true k n ofnR iN iD gN2 gD2).1 j (ofnR.getD i 0)
        = ofnR.getD (iN j i) 0
      ∧ (searchAllKFinal true true k n ofnR iN iD gN2 gD2).2 j (ofnR.getD i 0)
        = iD j i) := by
  refine ⟨⟨?_, ?_⟩, ⟨?_, ?_⟩, ⟨?_, ?_⟩⟩
  · show writeCols gN ((List.range n).map (fun a =>
        (ofnQ.getD a 0, fun j => ofnR.getD (iN j a) 0))) j (ofnQ.getD i 0)
      = ofnR.getD (iN j i) 0
    exact writeCols_range gN n _ (fun a j => ofnR.getD (iN j a) 0) hQ i hi j
  · show writeCols gD ((List.range n).map (fun a =>
        (ofnQ.getD a 0, fun j => iD j a))) j (ofnQ.getD i 0) = iD j i
    exact writeCols_range gD n _ (fun a j => iD j a) hQ i hi j
  · rfl
  · rfl
  · show writeCols gN2 ((List.range n).map (fun a =>
        (ofnR.getD a 0, fun j => ofnR.getD (iN j a) 0))) j (ofnR.getD i 0)
      = ofnR.getD (iN j i) 0
    exact writeCols_range gN2 n _ (fun a j => ofnR.getD (iN j a) 0) hR i hi j
  · show writeCols gD2 ((List.range n).map (fun a =>
        (ofnR.getD a 0, fun j => iD j a))) j (ofnR.getD i 0) = iD j i
    exact writeCols_range gD2 n _ (fun a j => iD j a) hR i hi j

/-- Witness for C1 at a concrete two-column search with the reversing
permutation. -/
theorem search_results_remapped_witness :
    ((List.range 2).map (fun a => [1, 0].getD a 0)).Nodup
    ∧ (0 : Nat) < 2
    ∧ (((searchQuerySetFinal true false false true 1 2 [1, 0] [1, 0]
          (fun _ a => a) (fun _ a => (a : ℚ)) (fun _ _ => 99) (fun _ _ => 99)).1 0
            ([1, 0].getD 0 0) = [1, 0].getD ((fun (_ a : Nat) => a) 0 0) 0
        ∧ (searchQuerySetFinal true false false true 1 2 [1, 0] [1, 0]
          (fun _ a => a) (fun _ a => (a : ℚ)) (fun _ _ => 99) (fun _ _ => 99)).2 0
            ([1, 0].getD 0 0) = (fun (_ a : Nat) => (a : ℚ)) 0 0)
      ∧ ((searchQuerySetFinal true false true true 1 2 [1, 0] [1, 0]
          (fun _ a => a) (fun _ a => (a : ℚ)) (fun _ _ => 99) (fun _ _ => 99)).1 0 0
            = [1, 0].getD ((fun (_ a : Nat) => a) 0 0) 0
        ∧ (searchQuerySetFinal true false true true 1 2 [1, 0] [1, 0]
          (fun _ a => a) (fun _ a => (a : ℚ)) (fun _ _ => 99) (fun _ _ => 99)).2 0 0
            = (fun (_ a : Nat) => (a : ℚ)) 0 0)
      ∧ ((searchAllKFinal true true 1 2 [1, 0]
          (fun _ a => a) (fun _ a => (a : ℚ)) (fun _ _ => 98) (fun _ _ => 98)).1 0
            ([1, 0].getD 0 0) = [1, 0].getD ((fun (_ a : Nat) => a) 0 0) 0
        ∧ (searchAllKFinal true true 1 2 [1, 0]
          (fun _ a => a) (fun _ a => (a : ℚ)) (fun _ _ => 98) (fun _ _ => 98)).2 0
            ([1, 0].getD 0 0) = (fun (_ a : Nat) => (a : ℚ)) 0 0)) :=
  ⟨by decide, by decide,
   search_results_remapped_to_original_indices 1 2 [1, 0] [1, 0]
     (fun _ a => a) (fun _ a => (a : ℚ)) (fun _ _ => 99) (fun _ _ => 98)
     (fun _ _ => 99) (fun _ _ => 98) (by decide) (by decide) 0 0 (by decide)⟩

/-- Claim C2 (the code evaluated at the failing input): in naive mode with
`n = 4` reference points, `k = 1`, `tau = 1/2`, `alpha = 1/2`, the engine's
minimum sample count is `1` — and the all-reference overload
`Search(k, neighbors, distances)` nevertheless runs `BaseCase` on all `4`
reference points for every query, ignoring the drawn sample, while the
query-set overload runs exactly `1` `BaseCase` call per query as the spec
requires. -/
theorem naiveAllK_ignores_drawn_samples :
    (naiveAllKRun 4 1 (1 / 2) (1 / 2) 0).1.length = 1
    ∧ ((naiveAllKRun 4 1 (1 / 2) (1 / 2) 0).2.countP (fun p => decide (p.1 = 0))) = 4
    ∧ (naiveQuerySetRun 3 4 1 (1 / 2) (1 / 2) 0).1.length = 1
    ∧ ((naiveQuerySetRun 3 4 1 (1 / 2) (1 / 2) 0).2.countP (fun p => decide (p.1 = 0))) = 1
    ∧ (4 : Nat) ≠ 1 := by
  have hm : minimumSamplesReqd 4 1 (1 / 2) (1 / 2) = 1 := by
    have h0 : ¬((2⁻¹ : ℚ) ≤ hitProbability 4 2 0) := by
      norm_num [hitProbability]
    have h1 : ((2⁻¹ : ℚ) ≤ hitProbability 4 2 1) := by
      norm_num [hitProbability, Nat.choose_one_right]
    have ht : (⌈(1 / 2 : ℚ) * ((4 : ℕ) : ℚ)⌉).toNat = 2 := by
      rw [show ((1 : ℚ) / 2 * ((4 : ℕ) : ℚ)) = ((2 : ℤ) : ℚ) by norm_num,
        Int.ceil_intCast]
      rfl
    unfold minimumSamplesReqd
    rw [if_neg (by norm_num)]
    simp only [ht]
    rw [show List.range (4 + 1) = [0, 1, 2, 3, 4] from rfl]
    simp [List.find?, decide_eq_true h1, decide_eq_false h0]
  refine ⟨?_, by decide, ?_, ?_, by decide⟩
  · show (obtainDistinctSamples (minimumSamplesReqd 4 1 (1 / 2) (1 / 2)) 4 0).length = 1
    rw [hm]; decide
  · show (obtainDistinctSamples (minimumSamplesReqd 4 1 (1 / 2) (1 / 2)) 4 0).length = 1
    rw [hm]; decide
  · show ((List.range 3).flatMap (fun i =>
        (obtainDistinctSamples (minimumSamplesReqd 4 1 (1 / 2) (1 / 2)) 4 0).map
          (fun j => (i, j)))).countP (fun p => decide (p.1 = 0)) = 1
    rw [hm]; decide

/-- Claim C10: `MaxVarianceNewCluster::EmptyCluster` always returns `1` and
reassigns exactly one point — provided the maximum-variance cluster holds at
least two points (and some point is assigned to it), it decrements that
cluster's count by one, increments the empty cluster's count by one, leaves
every other count unchanged (the counts are returned as exactly the two-cell
update, so the total is preserved), seats the reassigned point as the empty
cluster's centroid, zeroes the empty cluster's variance, and flips exactly
the reassigned point's assignment from the maximum-variance cluster to the
empty cluster. -/
theorem emptyCluster_moves_one_point
    (metric : Metric) (s : MVNC) (data oldC newC : List Vec)
    (counts : List Nat) (emptyC iter : Nat)
    (hex : ∃ i, i < data.length ∧
      (mvncEffective metric s data oldC counts iter).1.getD i 0
        = ecMaxVar metric s data oldC counts iter)
    (h2 : 2 ≤ counts.getD (ecMaxVar metric s data oldC counts iter) 0)
    (hlt : counts.getD (ecMaxVar metric s data oldC counts iter) 0 < 2 ^ 64)
    (h0 : counts.getD emptyC 0 = 0)
    (hmvlen : ecMaxVar metric s data oldC counts iter < counts.length)
    (hemlen : emptyC < counts.length)
    (hemvar : emptyC < (mvncEffective metric s data oldC counts iter).2.length)
    (hemcent : emptyC < newC.length) :
    (emptyCluster metric s data emptyC oldC newC counts iter).ret = 1
    ∧ (emptyCluster metric s data emptyC oldC newC counts iter).clusterCounts
        = (counts.set (ecMaxVar metric s data oldC counts iter)
            (counts.getD (ecMaxVar metric s data oldC counts iter) 0 - 1)).set emptyC
            (counts.getD emptyC 0 + 1)
    ∧ (emptyCluster metric s data emptyC oldC newC counts iter).clusterCounts.getD
        (ecMaxVar metric s data oldC counts iter) 0
        = counts.getD (ecMaxVar metric s data oldC counts iter) 0 - 1
    ∧ (emptyCluster metric s data emptyC oldC newC counts iter).clusterCounts.getD emptyC 0
        = counts.getD emptyC 0 + 1
    ∧ (emptyCluster metric s data emptyC oldC newC counts iter).clusterCounts.sum = counts.sum
    ∧ (emptyCluster metric s data emptyC oldC newC counts iter).newCentroids.getD emptyC []
        = data.getD (ecFurthestPoint metric s data oldC newC counts iter) []
    ∧ (emptyCluster metric s data emptyC oldC newC counts iter).state.variances.getD emptyC 0 = 0
    ∧ (emptyCluster metric s data emptyC oldC newC counts iter).state.assignments
        = (mvncEffective metric s data oldC counts iter).1.set
            (ecFurthestPoint metric s data oldC newC counts iter) emptyC
    ∧ ecFurthestPoint metric s data oldC newC counts iter < data.length
    ∧ (mvncEffective metric s data oldC counts iter).1.getD
        (ecFurthestPoint metric s data oldC newC counts iter) 0
        = ecMaxVar metric s data oldC counts iter
    ∧ emptyC ≠ ecMaxVar metric s data oldC counts iter := by
  have hne : emptyC ≠ ecMaxVar metric s data oldC counts iter := by
    intro h
    rw [← h] at h2
    omega
  have hfp := furthestPoint_found metric data
    (mvncEffective metric s data oldC counts iter).1
    (ecMaxVar metric s data oldC counts iter)
    (newC.getD (ecMaxVar metric s data oldC counts iter) []) hex
  have hcore := emptyClusterCore_spec data emptyC newC counts iter
    (mvncEffective metric s data oldC counts iter).1
    (mvncEffective metric s data oldC counts iter).2
    (ecMaxVar metric s data oldC counts iter)
    (ecFurthestPoint metric s data oldC newC counts iter)
    ((furthestPoint metric data (mvncEffective metric s data oldC counts iter).1
        (ecMaxVar metric s data oldC counts iter)
        (newC.getD (ecMaxVar metric s data oldC counts iter) [])).2.getD (-DBL_MAX))
    h2 hlt hne hmvlen hemlen hemvar hemcent h0
  exact ⟨hcore.1, hcore.2.1, hcore.2.2.1, hcore.2.2.2.1, hcore.2.2.2.2.1,
    hcore.2.2.2.2.2.1, hcore.2.2.2.2.2.2.1, hcore.2.2.2.2.2.2.2,
    hfp.1, hfp.2, hne⟩

/-- Witness for C10 at a concrete three-point, two-cluster instance. -/
theorem emptyCluster_moves_one_point_witness :
    (∃ i, i < ([[0], [1], [4]] : List Vec).length ∧
      (mvncEffective (fun a b => |List.getD a 0 0 - List.getD b 0 0|) (⟨1, [0, 0, 0], [4, 0]⟩ : MVNC) ([[0], [1], [4]] : List Vec) ([[1], [100]] : List Vec) ([3, 0] : List Nat) 1).1.getD i 0 = ecMaxVar (fun a b => |List.getD a 0 0 - List.getD b 0 0|) (⟨1, [0, 0, 0], [4, 0]⟩ : MVNC) ([[0], [1], [4]] : List Vec) ([[1], [100]] : List Vec) ([3, 0] : List Nat) 1)
    ∧ 2 ≤ ([3, 0] : List Nat).getD (ecMaxVar (fun a b => |List.getD a 0 0 - List.getD b 0 0|) (⟨1, [0, 0, 0], [4, 0]⟩ : MVNC) ([[0], [1], [4]] : List Vec) ([[1], [100]] : List Vec) ([3, 0] : List Nat) 1) 0
    ∧ ([3, 0] : List Nat).getD (ecMaxVar (fun a b => |List.getD a 0 0 - List.getD b 0 0|) (⟨1, [0, 0, 0], [4, 0]⟩ : MVNC) ([[0], [1], [4]] : List Vec) ([[1], [100]] : List Vec) ([3, 0] : List Nat) 1) 0 < 2 ^ 64
    ∧ ([3, 0] : List Nat).getD 1 0 = 0
    ∧ ecMaxVar (fun a b => |List.getD a 0 0 - List.getD b 0 0|) (⟨1, [0, 0, 0], [4, 0]⟩ : MVNC) ([[0], [1], [4]] : List Vec) ([[1], [100]] : List Vec) ([3, 0] : List Nat) 1 < ([3, 0] : List Nat).length
    ∧ 1 < ([3, 0] : List Nat).length
    ∧ 1 < (mvncEffective (fun a b => |List.getD a 0 0 - List.getD b 0 0|) (⟨1, [0, 0, 0], [4, 0]⟩ : MVNC) ([[0], [1], [4]] : List Vec) ([[1], [100]] : List Vec) ([3, 0] : List Nat) 1).2.length
    ∧ 1 < ([[1], [100]] : List Vec).length
    ∧ ((emptyCluster (fun a b => |List.getD a 0 0 - List.getD b 0 0|) (⟨1, [0, 0, 0], [4, 0]⟩ : MVNC) ([[0], [1], [4]] : List Vec) 1 ([[1], [100]] : List Vec) ([[1], [100]] : List Vec) ([3, 0] : List Nat) 1).ret = 1
      ∧ (emptyCluster (fun a b => |List.getD a 0 0 - List.getD b 0 0|) (⟨1, [0, 0, 0], [4, 0]⟩ : MVNC) ([[0], [1], [4]] : List Vec) 1 ([[1], [100]] : List Vec) ([[1], [100]] : List Vec) ([3, 0] : List Nat) 1).clusterCounts
          = (([3, 0] : List Nat).set (ecMaxVar (fun a b => |List.getD a 0 0 - List.getD b 0 0|) (⟨1, [0, 0, 0], [4, 0]⟩ : MVNC) ([[0], [1], [4]] : List Vec) ([[1], [100]] : List Vec) ([3, 0] : List Nat) 1) (([3, 0] : List Nat).getD (ecMaxVar (fun a b => |List.getD a 0 0 - List.getD b 0 0|) (⟨1, [0, 0, 0], [4, 0]⟩ : MVNC) ([[0], [1], [4]] : List Vec) ([[1], [100]] : List Vec) ([3, 0] : List Nat) 1) 0 - 1)).set 1 (([3, 0] : List Nat).getD 1 0 + 1)
      ∧ (emptyCluster (fun a b => |List.getD a 0 0 - List.getD b 0 0|) (⟨1, [0, 0, 0], [4, 0]⟩ : MVNC) ([[0], [1], [4]] : List Vec) 1 ([[1], [100]] : List Vec) ([[1], [100]] : List Vec) ([3, 0] : List Nat) 1).clusterCounts.getD (ecMaxVar (fun a b => |List.getD a 0 0 - List.getD b 0 0|) (⟨1, [0, 0, 0], [4, 0]⟩ : MVNC) ([[0], [1], [4]] : List Vec) ([[1], [100]] : List Vec) ([3, 0] : List Nat) 1) 0 = ([3, 0] : List Nat).getD (ecMaxVar (fun a b => |List.getD a 0 0 - List.getD b 0 0|) (⟨1, [0, 0, 0], [4, 0]⟩ : MVNC) ([[0], [1], [4]] : List Vec) ([[1], [100]] : List Vec) ([3, 0] : List Nat) 1) 0 - 1
      ∧ (emptyCluster (fun a b => |List.getD a 0 0 - List.getD b 0 0|) (⟨1, [0, 0, 0], [4, 0]⟩ : MVNC) ([[0], [1], [4]] : List Vec) 1 ([[1], [100]] : List Vec) ([[1], [100]] : List Vec) ([3, 0] : List Nat) 1).clusterCounts.getD 1 0 = ([3, 0] : List Nat).getD 1 0 + 1
      ∧ (emptyCluster (fun a b => |List.getD a 0 0 - List.getD b 0 0|) (⟨1, [0, 0, 0], [4, 0]⟩ : MVNC) ([[0], [1], [4]] : List Vec) 1 ([[1], [100]] : List Vec) ([[1], [100]] : List Vec) ([3, 0] : List Nat) 1).clusterCounts.sum = ([3, 0] : List Nat).sum
      ∧ (emptyCluster (fun a b => |List.getD a 0 0 - List.getD b 0 0|) (⟨1, [0, 0, 0], [4, 0]⟩ : MVNC) ([[0], [1], [4]] : List Vec) 1 ([[1], [100]] : List Vec) ([[1], [100]] : List Vec) ([3, 0] : List Nat) 1).newCentroids.getD 1 [] = ([[0], [1], [4]] : List Vec).getD (ecFurthestPoint (fun a b => |List.getD a 0 0 - List.getD b 0 0|) (⟨1, [0, 0, 0], [4, 0]⟩ : MVNC) ([[0], [1], [4]] : List Vec) ([[1], [100]] : List Vec) ([[1], [100]] : List Vec) ([3, 0] : List Nat) 1) []
      ∧ (emptyCluster (fun a b => |List.getD a 0 0 - List.getD b 0 0|) (⟨1, [0, 0, 0], [4, 0]⟩ : MVNC) ([[0], [1], [4]] : List Vec) 1 ([[1], [100]] : List Vec) ([[1], [100]] : List Vec) ([3, 0] : List Nat) 1).state.variances.getD 1 0 = 0
      ∧ (emptyCluster (fun a b => |List.getD a 0 0 - List.getD b 0 0|) (⟨1, [0, 0, 0], [4, 0]⟩ : MVNC) ([[0], [1], [4]] : List Vec) 1 ([[1], [100]] : List Vec) ([[1], [100]] : List Vec) ([3, 0] : List Nat) 1).state.assignments = (mvncEffective (fun a b => |List.getD a 0 0 - List.getD b 0 0|) (⟨1, [0, 0, 0], [4, 0]⟩ : MVNC) ([[0], [1], [4]] : List Vec) ([[1], [100]] : List Vec) ([3, 0] : List Nat) 1).1.set (ecFurthestPoint (fun a b => |List.getD a 0 0 - List.getD b 0 0|) (⟨1, [0, 0, 0], [4, 0]⟩ : MVNC) ([[0], [1], [4]] : List Vec) ([[1], [100]] : List Vec) ([[1], [100]] : List Vec) ([3, 0] : List Nat) 1) 1
      ∧ ecFurthestPoint (fun a b => |List.getD a 0 0 - List.getD b 0 0|) (⟨1, [0, 0, 0], [4, 0]⟩ : MVNC) ([[0], [1], [4]] : List Vec) ([[1], [100]] : List Vec) ([[1], [100]] : List Vec) ([3, 0] : List Nat) 1 < ([[0], [1], [4]] : List Vec).length
      ∧ (mvncEffective (fun a b => |List.getD a 0 0 - List.getD b 0 0|) (⟨1, [0, 0, 0], [4, 0]⟩ : MVNC) ([[0], [1], [4]] : List Vec) ([[1], [100]] : List Vec) ([3, 0] : List Nat) 1).1.getD (ecFurthestPoint (fun a b => |List.getD a 0 0 - List.getD b 0 0|) (⟨1, [0, 0, 0], [4, 0]⟩ : MVNC) ([[0], [1], [4]] : List Vec) ([[1], [100]] : List Vec) ([[1], [100]] : List Vec) ([3, 0] : List Nat) 1) 0 = ecMaxVar (fun a b => |List.getD a 0 0 - List.getD b 0 0|) (⟨1, [0, 0, 0], [4, 0]⟩ : MVNC) ([[0], [1], [4]] : List Vec) ([[1], [100]] : List Vec) ([3, 0] : List Nat) 1
      ∧ 1 ≠ ecMaxVar (fun a b => |List.getD a 0 0 - List.getD b 0 0|) (⟨1, [0, 0, 0], [4, 0]⟩ : MVNC) ([[0], [1], [4]] : List Vec) ([[1], [100]] : List Vec) ([3, 0] : List Nat) 1) := by
  have heff : (mvncEffective (fun a b => |List.getD a 0 0 - List.getD b 0 0|) (⟨1, [0, 0, 0], [4, 0]⟩ : MVNC) ([[0], [1], [4]] : List Vec) ([[1], [100]] : List Vec) ([3, 0] : List Nat) 1) = ([0, 0, 0], ([4, 0] : List ℚ)) := by
    simp [mvncEffective]
  have hmv : ecMaxVar (fun a b => |List.getD a 0 0 - List.getD b 0 0|) (⟨1, [0, 0, 0], [4, 0]⟩ : MVNC) ([[0], [1], [4]] : List Vec) ([[1], [100]] : List Vec) ([3, 0] : List Nat) 1 = 0 := by
    simp only [ecMaxVar]
    rw [heff]
    show List.foldl _ 0 (List.range 2) = 0
    rw [show List.range 2 = [0, 1] from rfl]
    simp only [List.foldl]
    norm_num
  have hex : ∃ i, i < ([[0], [1], [4]] : List Vec).length ∧
      (mvncEffective (fun a b => |List.getD a 0 0 - List.getD b 0 0|) (⟨1, [0, 0, 0], [4, 0]⟩ : MVNC) ([[0], [1], [4]] : List Vec) ([[1], [100]] : List Vec) ([3, 0] : List Nat) 1).1.getD i 0 = ecMaxVar (fun a b => |List.getD a 0 0 - List.getD b 0 0|) (⟨1, [0, 0, 0], [4, 0]⟩ : MVNC) ([[0], [1], [4]] : List Vec) ([[1], [100]] : List Vec) ([3, 0] : List Nat) 1 :=
    ⟨0, by norm_num, by rw [hmv, heff]; decide⟩
  have h2 : 2 ≤ ([3, 0] : List Nat).getD (ecMaxVar (fun a b => |List.getD a 0 0 - List.getD b 0 0|) (⟨1, [0, 0, 0], [4, 0]⟩ : MVNC) ([[0], [1], [4]] : List Vec) ([[1], [100]] : List Vec) ([3, 0] : List Nat) 1) 0 := by rw [hmv]; decide
  have hlt : ([3, 0] : List Nat).getD (ecMaxVar (fun a b => |List.getD a 0 0 - List.getD b 0 0|) (⟨1, [0, 0, 0], [4, 0]⟩ : MVNC) ([[0], [1], [4]] : List Vec) ([[1], [100]] : List Vec) ([3, 0] : List Nat) 1) 0 < 2 ^ 64 := by rw [hmv]; decide
  have h0 : ([3, 0] : List Nat).getD 1 0 = 0 := rfl
  have hmvlen : ecMaxVar (fun a b => |List.getD a 0 0 - List.getD b 0 0|) (⟨1, [0, 0, 0], [4, 0]⟩ : MVNC) ([[0], [1], [4]] : List Vec) ([[1], [100]] : List Vec) ([3, 0] : List Nat) 1 < ([3, 0] : List Nat).length := by rw [hmv]; decide
  have hemlen : (1 : Nat) < ([3, 0] : List Nat).length := by decide
  have hemvar : (1 : Nat) < (mvncEffective (fun a b => |List.getD a 0 0 - List.getD b 0 0|) (⟨1, [0, 0, 0], [4, 0]⟩ : MVNC) ([[0], [1], [4]] : List Vec) ([[1], [100]] : List Vec) ([3, 0] : List Nat) 1).2.length := by rw [heff]; decide
  have hemcent : (1 : Nat) < ([[1], [100]] : List Vec).length := by decide
  exact ⟨hex, h2, hlt, h0, hmvlen, hemlen, hemvar, hemcent,
    emptyCluster_moves_one_point (fun a b => |List.getD a 0 0 - List.getD b 0 0|) (⟨1, [0, 0, 0], [4, 0]⟩ : MVNC) ([[0], [1], [4]] : List Vec) ([[1], [100]] : List Vec) ([[1], [100]] : List Vec) ([3, 0] : List Nat) 1 1
      hex h2 hlt h0 hmvlen hemlen hemvar hemcent⟩

end MlpackSpec
